import Mathlib

/-!
Shallow embedding of `pysh/filters.py`: the pipeline-composition core
(IoSpec, Filter, pipe composition, the Function wrapper, and the entry
points `slurp` and `to_stdout`).

Modelling conventions:
- Byte strings are lists of naturals; the newline byte is 10.
- An in-memory byte buffer (`io.BytesIO`) is a `PyStream`: its contents
  plus a read/write position.  `write` writes at the position (overwriting
  and extending, as BytesIO does), `read` returns everything from the
  position to the end and moves the position to the end, `seek0` is
  `seek(0)`.
- Python exceptions are modelled by `Except Err`: `Err.usage` is
  `RuntimeError`, `Err.notImpl` is `NotImplementedError`, `Err.assertFail`
  is a failing `assert`, `Err.typeError` is `TypeError` (calling a
  callable with the wrong number of arguments), `Err.attrError` is
  `AttributeError` (calling a stream method on `None`).
- A thunk receives the input and output handles (each `None` or a stream)
  and returns its Python return value together with the final states of
  the two handles; in-place mutation of a stream is modelled by returning
  the updated stream state in the corresponding component.
- A Python callable of unknown arity is a `Callable`: the source builds
  thunks as two-argument lambdas, except for one branch of
  `Function.__call__` which builds a zero-argument lambda; every call
  site in the source invokes a thunk with exactly two arguments, which
  on a zero-argument callable raises `TypeError`.
- `sys.stdout.buffer` is threaded into `to_stdout` as an explicit stream
  parameter, so its final state is observable.
-/

namespace Pysh

/-- Byte strings: lists of byte values. -/
abbrev Bytes := List Nat

/-- The state of an `io.BytesIO` object (also used for stdout): contents
and current position. -/
structure PyStream where
  data : Bytes
  pos : Nat
deriving DecidableEq

/-- `BytesIO.write`: write at the current position, overwriting and
extending, and advance the position past the written bytes. -/
def PyStream.write (s : PyStream) (b : Bytes) : PyStream :=
  ⟨s.data.take s.pos ++ b ++ s.data.drop (s.pos + b.length), s.pos + b.length⟩

/-- `BytesIO.read()` with no argument: return everything from the current
position to the end and move the position to the end. -/
def PyStream.read (s : PyStream) : Bytes × PyStream :=
  (s.data.drop s.pos, ⟨s.data, s.data.length⟩)

/-- `BytesIO.seek(0)`: rewind to the start. -/
def PyStream.seek0 (s : PyStream) : PyStream :=
  ⟨s.data, 0⟩

/-- The exceptions the embedded code can raise. -/
inductive Err where
  | usage        -- RuntimeError
  | notImpl      -- NotImplementedError
  | assertFail   -- assert False
  | typeError    -- TypeError: wrong number of arguments
  | attrError    -- AttributeError: stream method on None
deriving DecidableEq

/-- Python values returned by thunks in this core: `None` or a byte
string. -/
inductive PyVal where
  | none
  | bytes (b : Bytes)
deriving DecidableEq

/-- A source/sink handle: `None` or a stream. -/
abbrev Handle := Option PyStream

/-- What running a thunk produces: its return value and the final states
of the input and output handles it was given. -/
abbrev ThunkOut := PyVal × Handle × Handle

/-- A two-argument thunk body. -/
abbrev ThunkFun := Handle → Handle → Except Err ThunkOut

/-- A Python callable as stored in `Filter.thunk`.  The source annotates
the field as `Callable[[Any, Any], None]`, but one branch of
`Function.__call__` stores a zero-argument lambda; we keep both arities.
-/
inductive Callable where
  | arity2 (f : ThunkFun)
  | arity0 (f : Unit → Except Err ThunkOut)

/-- Invoking a callable with two arguments, as every call site in the
source does (`self.thunk(None, None)`, `left.thunk(input, buf)`, ...).
A zero-argument lambda called with two arguments raises `TypeError`. -/
def Callable.call2 : Callable → Handle → Handle → Except Err ThunkOut
  | Callable.arity2 f, i, o => f i o
  | Callable.arity0 _, _, _ => Except.error Err.typeError

/-- The endpoint kinds that appear in the source
(`none`, `stream`, `iter`, `bytes`). -/
inductive Kind where
  | none
  | stream
  | iter
  | bytes
deriving DecidableEq

/-- `IoSpec` from the source: endpoint kind plus the stored mandatory
flag `required_`. -/
structure IoSpec where
  type : Kind := Kind.none
  required_ : Bool := true
deriving DecidableEq

/-- The derived property `IoSpec.required`:
`self.required_ and self.type != 'none'`. -/
def IoSpec.required (s : IoSpec) : Bool :=
  s.required_ && s.type != Kind.none

/-- `Filter` from the source: input spec, output spec, and the thunk. -/
structure Filter where
  input : IoSpec
  output : IoSpec
  thunk : Callable

/-- `pipe_by_stream(left, right)`: the composed thunk allocates a fresh
buffer, runs the left thunk writing into it, rewinds the buffer, then
runs the right thunk reading from it, and returns the right thunk's
return value.  The left thunk cannot make the local buffer `None` in
Python; that impossible case is mapped to `AttributeError`
(`None.seek`). -/
def pipe_by_stream (left right : Filter) : Callable :=
  Callable.arity2 fun input output =>
    match left.thunk.call2 input (some (PyStream.mk [] 0)) with
    | Except.error e => Except.error e
    | Except.ok (_, input1, bufH) =>
      match bufH with
      | Option.none => Except.error Err.attrError
      | some buf =>
        match right.thunk.call2 (some buf.seek0) output with
        | Except.error e => Except.error e
        | Except.ok (r, _, output1) => Except.ok (r, input1, output1)

/-- `Filter.__call__`: runs the filter with no external source/sink.
Raises `RuntimeError` when the input is still required; delegates to the
thunk when the output is `iter`, `bytes`, or not required; raises
`NotImplementedError` on a required `stream` output; `assert False`
otherwise. -/
def Filter.call (f : Filter) : Except Err PyVal :=
  if f.input.required = true then Except.error Err.usage
  else if f.output.type = Kind.iter ∨ f.output.type = Kind.bytes
          ∨ f.output.required = false then
    match f.thunk.call2 Option.none Option.none with
    | Except.error e => Except.error e
    | Except.ok (v, _, _) => Except.ok v
  else if f.output.type = Kind.stream then Except.error Err.notImpl
  else Except.error Err.assertFail

/-- `Filter.__iter__`: usage error unless the output kind is `iter`,
otherwise invoke the filter. -/
def Filter.iter (f : Filter) : Except Err PyVal :=
  if f.output.type != Kind.iter then Except.error Err.usage
  else f.call

/-- `Filter.__or__` — the pipe operator.  Usage error on a kind mismatch
and on a shared kind of `none`; `pipe_by_stream` on `stream`;
`NotImplementedError` on `iter`; `assert False` otherwise (i.e. on
`bytes`). -/
def Filter.pipe (self other : Filter) : Except Err Filter :=
  if self.output.type ≠ other.input.type then Except.error Err.usage
  else if self.output.type = Kind.none then Except.error Err.usage
  else if self.output.type = Kind.stream then
    Except.ok (Filter.mk self.input other.output (pipe_by_stream self other))
  else if self.output.type = Kind.iter then Except.error Err.notImpl
  else Except.error Err.assertFail

/-- `bytes.rstrip(b'\n')`: drop every trailing newline byte. -/
def rstrip_nl (b : Bytes) : Bytes :=
  (b.reverse.dropWhile (fun c => c == 10)).reverse

/-- `slurp_filter`: input `stream` (mandatory), output `bytes`
(mandatory); the thunk reads the whole input stream and strips trailing
newlines.  Reading from an absent stream would be `AttributeError`. -/
def slurp_filter : Filter :=
  Filter.mk (IoSpec.mk Kind.stream true) (IoSpec.mk Kind.bytes true)
    (Callable.arity2 fun input output =>
      match input with
      | some s =>
        match s.read with
        | (bs, s1) => Except.ok (PyVal.bytes (rstrip_nl bs), some s1, output)
      | Option.none => Except.error Err.attrError)

/-- `slurp(filter)`: `(filter | slurp_filter)()`. -/
def slurp (f : Filter) : Except Err PyVal :=
  match f.pipe slurp_filter with
  | Except.error e => Except.error e
  | Except.ok piped => piped.call

/-- `to_stdout(filter)`: usage error when the input is required or the
output kind is not `stream`; otherwise run the thunk with an absent
source and the stdout stream as sink.  Stdout is passed explicitly so
its final state is observable. -/
def to_stdout (f : Filter) (stdout : PyStream) : Except Err ThunkOut :=
  if f.input.required = true then Except.error Err.usage
  else if f.output.type ≠ Kind.stream then Except.error Err.usage
  else f.thunk.call2 Option.none (some stdout)

/-- An argument in a wrapped function's call: a handle passed by the
thunk, or an opaque caller-supplied value. -/
inductive Arg where
  | handle (h : Handle)
  | val (n : Nat)

/-- The `Function` wrapper from the source: the wrapped function (seen
as a function of its full argument list) plus the declared specs. -/
structure Function where
  func : List Arg → Except Err ThunkOut
  input : IoSpec
  output : IoSpec

/-- `Function.pass_input`: pass the source iff the input kind is not
`none`. -/
def Function.pass_input (input : IoSpec) : Bool :=
  match input.type with
  | Kind.stream => true
  | Kind.iter => true
  | Kind.bytes => true
  | Kind.none => false

/-- `Function.pass_output`: pass the sink iff the output kind is
`stream`. -/
def Function.pass_output (output : IoSpec) : Bool :=
  match output.type with
  | Kind.stream => true
  | Kind.none => false
  | Kind.iter => false
  | Kind.bytes => false

/-- `Function.__call__(*args)`: build a Filter whose thunk closes over
the wrapped function and the supplied arguments, in one of four shapes.
The source builds the fourth shape as `lambda: self.func(*args)` — a
zero-argument lambda. -/
def Function.call (f : Function) (args : List Arg) : Filter :=
  let pi := Function.pass_input f.input
  let po := Function.pass_output f.output
  let thunk : Callable :=
    if pi && po then
      Callable.arity2 fun input output =>
        f.func (Arg.handle input :: Arg.handle output :: args)
    else if pi then
      Callable.arity2 fun input _ =>
        f.func (Arg.handle input :: args)
    else if po then
      Callable.arity2 fun _ output =>
        f.func (Arg.handle output :: args)
    else
      Callable.arity0 fun _ => f.func args
  Filter.mk f.input f.output thunk

/-! Concrete thunks and filters used to instantiate the theorems below. -/

/-- A thunk that does nothing: returns `None` and leaves both handles
untouched. -/
def noop : Callable :=
  Callable.arity2 fun i o => Except.ok (PyVal.none, i, o)

/-- A filter with the given endpoint kinds (both flags stored as
mandatory) and a no-op thunk. -/
def kfilter (ki ko : Kind) : Filter :=
  Filter.mk (IoSpec.mk ki true) (IoSpec.mk ko true) noop

/-- A thunk that writes the byte string `bs` to its sink in one call and
returns `None`. -/
def writer (bs : Bytes) : Callable :=
  Callable.arity2 fun i o =>
    Except.ok (PyVal.none, i, o.map fun s => s.write bs)

/-- A thunk that writes `b1` and then `b2` to its sink in two separate
writes and returns `None`. -/
def writer2 (b1 b2 : Bytes) : Callable :=
  Callable.arity2 fun i o =>
    Except.ok (PyVal.none, i, o.map fun s => (s.write b1).write b2)

/-- A thunk that reads all available bytes from its source in a single
read and returns them. -/
def read_all : Callable :=
  Callable.arity2 fun i o =>
    match i with
    | some s =>
      match s.read with
      | (bs, s1) => Except.ok (PyVal.bytes bs, some s1, o)
    | Option.none => Except.error Err.attrError

/-- A wrapped function that ignores its arguments. -/
def const_func : List Arg → Except Err ThunkOut :=
  fun _ => Except.ok (PyVal.none, Option.none, Option.none)

/-- The composed filter used to instantiate the spec-propagation
theorem. -/
def piped0 : Filter :=
  Filter.mk (IoSpec.mk Kind.none true) (IoSpec.mk Kind.none true)
    (pipe_by_stream (kfilter Kind.none Kind.stream) (kfilter Kind.stream Kind.none))

/-! Theorems. -/

/-- Claim C6: an IoSpec of kind none is never required, whatever the
stored flag; for every other kind the derived property equals the stored
flag. -/
theorem required_none_false_else_flag (b : Bool) :
    (IoSpec.mk Kind.none b).required = false ∧
    (IoSpec.mk Kind.stream b).required = b ∧
    (IoSpec.mk Kind.iter b).required = b ∧
    (IoSpec.mk Kind.bytes b).required = b := by
  cases b <;> decide

/-- Claim C10: a matched, non-none pair of adjoining bytes kinds drives
pipe composition into the unguarded assert-False branch: it fails with
the assertion failure, not success, the usage error, or the
not-implemented signal. -/
theorem pipe_bytes_bytes_assert (A B : Filter)
    (hA : A.output.type = Kind.bytes) (hB : B.input.type = Kind.bytes) :
    A.pipe B = Except.error Err.assertFail := by
  simp [Filter.pipe, hA, hB]

theorem pipe_bytes_bytes_assert_witness :
    (kfilter Kind.none Kind.bytes).output.type = Kind.bytes ∧
    (kfilter Kind.bytes Kind.none).input.type = Kind.bytes ∧
    (kfilter Kind.none Kind.bytes).pipe (kfilter Kind.bytes Kind.none)
      = Except.error Err.assertFail :=
  ⟨rfl, rfl, pipe_bytes_bytes_assert _ _ rfl rfl⟩

/-- Claim C9: whenever pipe composition succeeds, the resulting filter
keeps the left filter's input spec and the right filter's output spec. -/
theorem pipe_specs (A B F : Filter) (h : A.pipe B = Except.ok F) :
    F.input = A.input ∧ F.output = B.output := by
  unfold Filter.pipe at h
  split at h
  · cases h
  · split at h
    · cases h
    · split at h
      · rw [Except.ok.injEq] at h
        exact h ▸ ⟨rfl, rfl⟩
      · split at h
        · cases h
        · cases h

theorem pipe_specs_witness :
    (kfilter Kind.none Kind.stream).pipe (kfilter Kind.stream Kind.none)
      = Except.ok piped0 ∧
    piped0.input = (kfilter Kind.none Kind.stream).input ∧
    piped0.output = (kfilter Kind.stream Kind.none).output :=
  ⟨rfl,
    (pipe_specs (kfilter Kind.none Kind.stream) (kfilter Kind.stream Kind.none)
      piped0 rfl).1,
    (pipe_specs (kfilter Kind.none Kind.stream) (kfilter Kind.stream Kind.none)
      piped0 rfl).2⟩

/-- Claim C1, counterexample: the matched, non-none pair of iter kinds
does not compose successfully — it raises the not-implemented signal —
even though the kinds match and are not none. -/
theorem pipe_matched_iter_raises :
    (kfilter Kind.none Kind.iter).output.type
        = (kfilter Kind.iter Kind.none).input.type ∧
    (kfilter Kind.none Kind.iter).output.type ≠ Kind.none ∧
    (kfilter Kind.none Kind.iter).pipe (kfilter Kind.iter Kind.none)
      = Except.error Err.notImpl :=
  ⟨rfl, by decide, rfl⟩

/-- Claim C1, amended: pipe composition returns a new Filter without
raising iff the adjoining kinds match and the shared kind is stream;
every pair whose kinds differ, and the pair whose shared kind is none,
raises the usage error (matched iter raises the not-implemented signal
and matched bytes fails the internal assertion instead of succeeding). -/
theorem pipe_ok_iff (A B : Filter) :
    ((∃ F, A.pipe B = Except.ok F) ↔
      A.output.type = B.input.type ∧ A.output.type = Kind.stream) ∧
    (A.output.type ≠ B.input.type
        ∨ (A.output.type = Kind.none ∧ B.input.type = Kind.none) →
      A.pipe B = Except.error Err.usage) := by
  cases hA : A.output.type <;> cases hB : B.input.type <;>
    simp [Filter.pipe, hA, hB]

theorem pipe_ok_iff_witness :
    (kfilter Kind.none Kind.stream).output.type
        ≠ (kfilter Kind.bytes Kind.none).input.type ∧
    (kfilter Kind.none Kind.stream).pipe (kfilter Kind.bytes Kind.none)
      = Except.error Err.usage :=
  ⟨by decide, (pipe_ok_iff _ _).2 (Or.inl (by decide))⟩

/-- Claim C5: the iterator-composition path and the standalone
stream-return path both raise the not-implemented signal, which is a
different value from the usage error raised on precondition
violations. -/
theorem unimplemented_paths (A B f : Filter)
    (hA : A.output.type = Kind.iter) (hB : B.input.type = Kind.iter)
    (h1 : f.input.required = false) (h2 : f.output.type = Kind.stream)
    (h3 : f.output.required_ = true) :
    A.pipe B = Except.error Err.notImpl ∧
    f.call = Except.error Err.notImpl ∧
    Err.notImpl ≠ Err.usage := by
  refine ⟨by simp [Filter.pipe, hA, hB], ?_, by decide⟩
  have h4 : f.output.required = true := by simp [IoSpec.required, h2, h3]
  simp [Filter.call, h1, h2, h4]

theorem unimplemented_paths_witness :
    (kfilter Kind.none Kind.iter).output.type = Kind.iter ∧
    (kfilter Kind.none Kind.stream).input.required = false ∧
    (kfilter Kind.none Kind.iter).pipe (kfilter Kind.iter Kind.none)
      = Except.error Err.notImpl ∧
    (kfilter Kind.none Kind.stream).call = Except.error Err.notImpl :=
  ⟨rfl, by decide,
    (unimplemented_paths (kfilter Kind.none Kind.iter) (kfilter Kind.iter Kind.none)
      (kfilter Kind.none Kind.stream) rfl rfl (by decide) rfl rfl).1,
    (unimplemented_paths (kfilter Kind.none Kind.iter) (kfilter Kind.iter Kind.none)
      (kfilter Kind.none Kind.stream) rfl rfl (by decide) rfl rfl).2.1⟩

/-- Claim C7: slurp on a filter whose output kind is iter or bytes
raises the usage error (the terminal stage consumes a stream, so the
composition is rejected). -/
theorem slurp_non_stream_usage (f : Filter)
    (h : f.output.type = Kind.iter ∨ f.output.type = Kind.bytes) :
    slurp f = Except.error Err.usage := by
  rcases h with h | h <;> simp [slurp, Filter.pipe, slurp_filter, h]

theorem slurp_non_stream_usage_witness :
    ((kfilter Kind.none Kind.iter).output.type = Kind.iter ∨
      (kfilter Kind.none Kind.iter).output.type = Kind.bytes) ∧
    slurp (kfilter Kind.none Kind.iter) = Except.error Err.usage :=
  ⟨Or.inl rfl, slurp_non_stream_usage _ (Or.inl rfl)⟩

/-- Claim C8: to_stdout on a filter whose input is required, or whose
output kind is not stream, raises the usage error before ever invoking
the thunk, so nothing is written to the stdout stream. -/
theorem to_stdout_usage (f : Filter) (stdout : PyStream)
    (h : f.input.required = true ∨ f.output.type ≠ Kind.stream) :
    to_stdout f stdout = Except.error Err.usage := by
  rcases h with h | h
  · simp [to_stdout, h]
  · unfold to_stdout
    by_cases hr : f.input.required = true
    · simp [hr]
    · simp [hr, h]

theorem to_stdout_usage_witness :
    ((kfilter Kind.stream Kind.stream).input.required = true ∨
      (kfilter Kind.stream Kind.stream).output.type ≠ Kind.stream) ∧
    to_stdout (kfilter Kind.stream Kind.stream) (PyStream.mk [] 0)
      = Except.error Err.usage :=
  ⟨Or.inl (by decide), to_stdout_usage _ _ (Or.inl (by decide))⟩

/-- Claim C2 (failing shape): a function wrapped with input kind none
and output kind none, iter or bytes gets a zero-argument thunk, so
invoking the resulting Filter's thunk the way every call site does —
with the two handles — raises TypeError and never calls the wrapped
function, contradicting the Filter field's own two-argument type. -/
theorem function_neither_shape_type_error (func : List Arg → Except Err ThunkOut)
    (b1 b2 : Bool) (ko : Kind)
    (hk : ko = Kind.none ∨ ko = Kind.iter ∨ ko = Kind.bytes)
    (args : List Arg) (i o : Handle) :
    ((Function.mk func (IoSpec.mk Kind.none b1) (IoSpec.mk ko b2)).call
        args).thunk.call2 i o
      = Except.error Err.typeError := by
  rcases hk with h | h | h <;> subst h <;> rfl

theorem function_neither_shape_type_error_witness :
    (Kind.none = Kind.none ∨ Kind.none = Kind.iter ∨ Kind.none = Kind.bytes) ∧
    ((Function.mk const_func (IoSpec.mk Kind.none true)
        (IoSpec.mk Kind.none true)).call []).thunk.call2 Option.none Option.none
      = Except.error Err.typeError :=
  ⟨Or.inl rfl,
    function_neither_shape_type_error const_func true true Kind.none
      (Or.inl rfl) [] Option.none Option.none⟩

/-- Writing to a fresh buffer leaves exactly the written bytes, with the
position at the end. -/
theorem write_fresh (bs : Bytes) :
    (PyStream.mk [] 0).write bs = PyStream.mk bs bs.length := by
  simp [PyStream.write]

/-- Two successive writes to a fresh buffer leave the concatenation. -/
theorem write_write_fresh (b1 b2 : Bytes) :
    ((PyStream.mk [] 0).write b1).write b2
      = PyStream.mk (b1 ++ b2) (b1.length + b2.length) := by
  rw [write_fresh]
  simp [PyStream.write,
    List.drop_eq_nil_of_le (Nat.le_add_right b1.length b2.length)]

/-- Claim C3: composing over the shared stream kind succeeds, and the
composed action runs the left thunk to completion into a fresh buffer,
rewinds it, and only then runs the right thunk; a left stage writing b1
then b2 is observed by an all-at-once reader as the full concatenation
b1 ++ b2 in its single read, for every source and sink. -/
theorem stream_pipe_materializes (ia ob : IoSpec) (ra rb : Bool)
    (b1 b2 : Bytes) (src snk : Handle) :
    (Filter.mk ia (IoSpec.mk Kind.stream ra) (writer2 b1 b2)).pipe
        (Filter.mk (IoSpec.mk Kind.stream rb) ob read_all)
      = Except.ok (Filter.mk ia ob (pipe_by_stream
          (Filter.mk ia (IoSpec.mk Kind.stream ra) (writer2 b1 b2))
          (Filter.mk (IoSpec.mk Kind.stream rb) ob read_all))) ∧
    (pipe_by_stream
        (Filter.mk ia (IoSpec.mk Kind.stream ra) (writer2 b1 b2))
        (Filter.mk (IoSpec.mk Kind.stream rb) ob read_all)).call2 src snk
      = Except.ok (PyVal.bytes (b1 ++ b2), src, snk) := by
  refine ⟨rfl, ?_⟩
  simp [pipe_by_stream, Callable.call2, writer2, read_all, write_write_fresh,
    PyStream.seek0, PyStream.read]

/-- Dropping leading newline bytes past a block of newlines. -/
theorem dropWhile_replicate_append (k : Nat) (l : Bytes) :
    (List.replicate k 10 ++ l).dropWhile (fun c => c == 10)
      = l.dropWhile (fun c => c == 10) := by
  induction k with
  | zero => rfl
  | succ k ih => simp [List.replicate_succ, List.dropWhile_cons, ih]

/-- dropWhile does nothing when the head already fails the predicate. -/
theorem dropWhile_ne_head (l : Bytes) (h : l.head? ≠ some 10) :
    l.dropWhile (fun c => c == 10) = l := by
  cases l with
  | nil => rfl
  | cons a t =>
    have ha : (a == 10) = false := by
      simp only [List.head?] at h
      simpa using h
    simp [List.dropWhile_cons, ha]

/-- rstrip_nl removes every trailing newline byte, not just one. -/
theorem rstrip_nl_strips_all (core : Bytes) (k : Nat)
    (h : core.getLast? ≠ some 10) :
    rstrip_nl (core ++ List.replicate k 10) = core := by
  unfold rstrip_nl
  rw [List.reverse_append, List.reverse_replicate, dropWhile_replicate_append,
    dropWhile_ne_head _ (by rwa [List.head?_reverse]), List.reverse_reverse]

/-- Claim C4: slurp on a stream-output filter with non-required input
whose action writes bytes ending in any number of trailing newlines
returns those bytes with all trailing newline bytes removed. -/
theorem slurp_strips_trailing_newlines (ispec : IoSpec) (r : Bool)
    (core : Bytes) (k : Nat)
    (hin : ispec.required = false) (hlast : core.getLast? ≠ some 10) :
    slurp (Filter.mk ispec (IoSpec.mk Kind.stream r)
        (writer (core ++ List.replicate k 10)))
      = Except.ok (PyVal.bytes core) := by
  simp [slurp, Filter.pipe, slurp_filter, Filter.call, hin, pipe_by_stream,
    Callable.call2, writer, write_fresh, PyStream.seek0, PyStream.read,
    rstrip_nl_strips_all core k hlast]

theorem slurp_strips_trailing_newlines_witness :
    (IoSpec.mk Kind.none true).required = false ∧
    ([104, 101, 108, 108, 111] : Bytes).getLast? ≠ some 10 ∧
    slurp (Filter.mk (IoSpec.mk Kind.none true) (IoSpec.mk Kind.stream true)
        (writer ([104, 101, 108, 108, 111] ++ List.replicate 3 10)))
      = Except.ok (PyVal.bytes [104, 101, 108, 108, 111]) :=
  ⟨by decide, by decide,
    slurp_strips_trailing_newlines (IoSpec.mk Kind.none true) true
      [104, 101, 108, 108, 111] 3 (by decide) (by decide)⟩

end Pysh
